import Mathlib

/-!
Shallow embedding of the swap-quote and swap-execution pipeline of the
uniswap-v2-dapp repository (the final `src/components/SwapCard.jsx`).

The application code is UI glue around the Uniswap V2 SDK and viem.  The
library internals (viem parseEther, the SDK constant-product formula,
significant-digit display, minimumAmountOut, address sorting) are not part
of the repository sources, so they are modelled from the specification, as
flagged in each doc comment.  Everything else is translated line by line
from SwapCard.jsx.
-/

/-! ## Token registry (SwapCard.jsx lines 66, 151-152) -/

structure Token where
  address : String
  decimals : Nat
  symbol : String
deriving DecidableEq, Repr

def daiAddress : String := "0x6B175474E89094C44Da98b954EedeAC495271d0F"

def wethAddress : String := "0xC02aaA39b223FE8D0A0e5C4F27eAD9083C756Cc2"

def routerAddress : String := "0x7a250d5630B4cF539739dF2C5dAcb4c659F2488D"

def DAI : Token := { address := daiAddress, decimals := 18, symbol := "DAI" }

def WETH : Token := { address := wethAddress, decimals := 18, symbol := "WETH" }

/-! ## Canonical token ordering (SDK `sortsBefore`, used at SwapCard.jsx line 173) -/

/-- ASCII lower-casing of a character code (A-Z mapped to a-z). -/
def asciiLower (n : Nat) : Nat := if 65 ≤ n && n ≤ 90 then n + 32 else n

/-- The comparison key of an address: its lower-cased character codes. -/
def addrKey (s : String) : List Nat := s.data.map (fun c => asciiLower c.toNat)

/-- Strict lexicographic order on lists of character codes (JavaScript string
comparison restricted to ASCII). -/
def lexLt : List Nat → List Nat → Bool
  | [], [] => false
  | [], _ :: _ => true
  | _ :: _, [] => false
  | a :: as, b :: bs => if a < b then true else if b < a then false else lexLt as bs

/-- Modelled from the spec: the canonical token comparison of the AMM protocol,
comparing normalized (lower-cased) contract addresses. -/
def sortsBefore (a b : Token) : Bool := lexLt (addrKey a.address) (addrKey b.address)

/-- The destructuring at SwapCard.jsx line 173:
`const [token0, token1] = tokens[0].sortsBefore(tokens[1]) ? tokens : [token1, token0]`.
In the else arm the right-hand side reads `token1` and `token0` inside their own
declaration, which in JavaScript is a temporal-dead-zone ReferenceError at
runtime; that arm is therefore modelled as `none`. -/
def sortTokensJs (tokenA tokenB : Token) : Option (Token × Token) :=
  if sortsBefore tokenA tokenB then some (tokenA, tokenB) else none

/-! ## Textual amount parsing -/

/-- Value of a digit string read left to right. -/
def digitsToNat (l : List Char) : Nat := l.foldl (fun a c => 10 * a + (c.toNat - 48)) 0

def isDigits (l : List Char) : Bool := l.all Char.isDigit

/-- Shared decimal-text parser: `some (m, k)` when the string is a plain
non-negative decimal (digit string with at most one dot), denoting the
rational `m / 10^k` where `k` is the number of fractional digits; `none`
otherwise. -/
def parseDecimalParts (s : String) : Option (Nat × Nat) :=
  let l := s.data
  let intPart := l.takeWhile (fun c => !(c = '.'))
  let rest := l.dropWhile (fun c => !(c = '.'))
  match rest with
  | [] => if isDigits intPart then some (digitsToNat intPart, 0) else none
  | _ :: frac =>
    if isDigits intPart && isDigits frac then
      some (digitsToNat intPart * 10 ^ frac.length + digitsToNat frac, frac.length)
    else none

/-- Modelled from the spec: viem `parseEther` on the textual amount — parse a
plain non-negative decimal string into raw 18-decimal base units, and throw
(here: `none`) on any other string.  Fractional digits beyond the 18th are
truncated (the rounding of the 19th digit is not modelled; no claim depends
on it). -/
def parseEtherModel (s : String) : Option Nat :=
  match parseDecimalParts s with
  | none => none
  | some (m, k) => some (if k ≤ 18 then m * 10 ^ (18 - k) else m / 10 ^ (k - 18))

/-- Modelled from the spec: JavaScript `parseFloat` on the textual amount,
taken at exact rational value.  It is only reached on strings that
`parseEtherModel` accepted, where it denotes the exact decimal value; the
rounding of that value to binary floating point is not modelled (the claims
settled with it diverge by margins far above float rounding error). -/
def parseFloatModel (s : String) : ℚ :=
  match parseDecimalParts s with
  | none => 0
  | some (m, k) => (m : ℚ) / (10 : ℚ) ^ k

/-! ## Significant-digit display (SDK `Price.toSignificant(6)`, SwapCard.jsx line 190) -/

/-- Fuel-bounded count of base-10 digits (0 for 0). -/
def digitCountAux : Nat → Nat → Nat
  | 0, _ => 0
  | _ + 1, 0 => 0
  | fuel + 1, n + 1 => digitCountAux fuel ((n + 1) / 10) + 1

def digitCount (n : Nat) : Nat := digitCountAux 200 n

/-- The scaling exponent for significant-digit display of the price `n / d`:
`e - (sig - 1)` where `e = floor (log10 (n/d))`.  The candidate `e0` from
the digit counts is off by at most one and is fixed by an integer
comparison equivalent to `10^e0 <= n/d`. -/
def sigScale (sig n d : Nat) : ℤ :=
  let e0 : ℤ := ((digitCount n : ℤ) - 1) - ((digitCount d : ℤ) - 1)
  let ge : Bool :=
    if 0 ≤ e0 then decide (d * 10 ^ e0.toNat ≤ n) else decide (d ≤ n * 10 ^ (-e0).toNat)
  let e : ℤ := if ge then e0 else e0 - 1
  e - ((sig : ℤ) - 1)

/-- The significant digits kept for display: the price `n / d` divided by
`10 ^ sigScale`, rounded half up (`round (p/q) = (2p + q) / (2q)` with
floor division). -/
def sigMantissa (sig n d : Nat) : Nat :=
  let s := sigScale sig n d
  if 0 ≤ s then (2 * n + d * 10 ^ s.toNat) / (2 * (d * 10 ^ s.toNat))
  else (2 * (n * 10 ^ (-s).toNat) + d) / (2 * d)

/-- Modelled from the spec: the execution price is expressed with `sig`
significant figures for display (SDK `toSignificant`, half-up rounding),
here for the price `n / d` given as a ratio of naturals: the mantissa of
the `sig` kept digits scaled back by `10 ^ sigScale`. -/
def toSignificantRat (sig n d : Nat) : ℚ :=
  if n = 0 ∨ d = 0 then 0
  else if 0 ≤ sigScale sig n d then
    (sigMantissa sig n d : ℚ) * (10 : ℚ) ^ (sigScale sig n d).toNat
  else (sigMantissa sig n d : ℚ) / (10 : ℚ) ^ (-sigScale sig n d).toNat

/-! ## Constant-product quote (SDK `Pair.getOutputAmount`, reached from
SwapCard.jsx lines 185-191) -/

inductive SwapError where
  | parseFailure
  | poolNotFound
  | insufficientReserves
  | insufficientInput
deriving DecidableEq, Repr

/-- Result of the reserve fetch (`fetchPairReserves`, SwapCard.jsx lines
159-168): `reserve0`/`reserve1` are the raw reserves of the sorted
`token0 = DAI` and `token1 = WETH`; `poolNotFound` models a reverting
`getReserves` read. -/
inductive FetchResult where
  | ok (reserve0 reserve1 : Nat)
  | poolNotFound
deriving DecidableEq, Repr

/-- Modelled from the spec: the constant-product output formula of the wrapped
AMM SDK with the 0.3 percent input-side fee —
`amountOut = amountIn*997*reserveOut / (reserveIn*1000 + amountIn*997)`
with integer floor division. -/
def getAmountOut (amountIn reserveIn reserveOut : Nat) : Nat :=
  amountIn * 997 * reserveOut / (reserveIn * 1000 + amountIn * 997)

/-- Modelled from the spec: the SDK pair refuses to build a trade when either
reserve is zero (InsufficientReservesError) or the computed output is zero
(InsufficientInputAmountError); both surface as thrown errors. -/
def pairGetOutputAmount (amountIn reserveIn reserveOut : Nat) : Except SwapError Nat :=
  if reserveIn = 0 ∨ reserveOut = 0 then Except.error SwapError.insufficientReserves
  else if getAmountOut amountIn reserveIn reserveOut = 0 then
    Except.error SwapError.insufficientInput
  else Except.ok (getAmountOut amountIn reserveIn reserveOut)

/-- Model of `fetchRouteAndTrade` (SwapCard.jsx lines 185-191): build the pair from the
fetched reserves, construct the exact-input trade, and return the trade
output together with `rate = trade.executionPrice.toSignificant(6)`.
Since DAI sorts before WETH, the sorted `token0` is DAI and `token1` is
WETH, so the input-side reserve is `reserve1` exactly when swapping from
ETH.  Both tokens have 18 decimals, so the decimal-adjusted execution price
is the raw ratio `out / in`. -/
def fetchRouteAndTradeModel (amountInRaw : Nat) (isFromEth : Bool) (fetch : FetchResult) :
    Except SwapError (Nat × ℚ) :=
  match fetch with
  | FetchResult.poolNotFound => Except.error SwapError.poolNotFound
  | FetchResult.ok reserve0 reserve1 =>
    let reserveIn := if isFromEth then reserve1 else reserve0
    let reserveOut := if isFromEth then reserve0 else reserve1
    match pairGetOutputAmount amountInRaw reserveIn reserveOut with
    | Except.error e => Except.error e
    | Except.ok out =>
      Except.ok (out, toSignificantRat 6 out amountInRaw)

/-! ## handleAmountChange (SwapCard.jsx lines 208-221) -/

/-- Outcome of one `handleAmountChange` call: the two state updates, plus
whether the reserve-fetch network read was issued.  `parseEther(amount)` is
evaluated before `fetchRouteAndTrade` is invoked, so a throwing parse jumps
to the catch block without any network read; any later throw (pool not
found, zero reserves, zero output) is caught the same way, leaving
`toAmount = 0`.  On success the code sets
`toAmount = rate * parseFloat(amount)`. -/
structure QuoteOutcome where
  fromAmount : String
  toAmount : ℚ
  fetchedReserves : Bool
deriving DecidableEq, Repr

def handleAmountChangeModel (amount : String) (isFromEth : Bool) (fetch : FetchResult) :
    QuoteOutcome :=
  match parseEtherModel amount with
  | none => { fromAmount := amount, toAmount := 0, fetchedReserves := false }
  | some raw =>
    match fetchRouteAndTradeModel raw isFromEth fetch with
    | Except.error _ => { fromAmount := amount, toAmount := 0, fetchedReserves := true }
    | Except.ok (_, rate) =>
      { fromAmount := amount, toAmount := rate * parseFloatModel amount,
        fetchedReserves := true }

/-! ## buildSwapTransaction (SwapCard.jsx lines 223-239) -/

/-- Modelled from the spec: the minimum-output computation under a slippage
tolerance in basis points — `amountOut * (10000 - bps) / 10000` with
integer floor division (`new Percent("50", "10000")` supplies bps = 50). -/
def minimumAmountOut (amountOut bps : Nat) : Nat := amountOut * (10000 - bps) / 10000

/-- The local state of the settings modal (SettingsModal.jsx lines 4-5):
slippage tolerance and transaction deadline as entered in the two inputs.
They live only in the modal component and are never passed out of it. -/
structure SettingsState where
  slippage : String
  deadline : String
deriving DecidableEq, Repr

/-- The SwapCard component state relevant to a swap attempt. -/
structure SwapCardState where
  fromAmount : String
  isSwappingFromEth : Bool
  showSettings : Bool
  settings : SettingsState
deriving DecidableEq, Repr

/-- The `swapParams` object built at SwapCard.jsx lines 231-237, with its
JavaScript key insertion order (amountIn, amountOutMin, path, to,
deadline). -/
structure SwapParams where
  amountIn : Nat
  amountOutMin : Nat
  path : List String
  toAddr : String  -- the JavaScript key is named to
  deadline : Nat
deriving DecidableEq, Repr

/-- Model of `buildSwapTransaction`: re-parse the stored `fromAmount` string, rebuild
the trade, and assemble the router parameters.
`parseEther(trade.trade.inputAmount.toExact())` and
`parseEther(amountOutMin.toExact())` round-trip the raw 18-decimal
integers exactly, so they are modelled as the raw integers themselves.
The deadline is `Math.floor(Date.now()/1000 + 60*20)`, i.e. the floored
epoch seconds plus twenty minutes. -/
def buildSwapFromState (st : SwapCardState) (addr : String) (fetch : FetchResult)
    (nowMs : Nat) : Except SwapError SwapParams :=
  match parseEtherModel st.fromAmount with
  | none => Except.error SwapError.parseFailure
  | some raw =>
    match fetchRouteAndTradeModel raw st.isSwappingFromEth fetch with
    | Except.error e => Except.error e
    | Except.ok (out, _) =>
      Except.ok
        { amountIn := raw
          amountOutMin := minimumAmountOut out 50
          path := if st.isSwappingFromEth then [wethAddress, daiAddress]
                  else [daiAddress, wethAddress]
          toAddr := addr
          deadline := nowMs / 1000 + 60 * 20 }

/-! ## approveTokens and executeSwap (SwapCard.jsx lines 241-285) -/

/-- Result of one `writeContractAsync` call: a transaction hash, or a thrown
error (user rejection, revert on submission, ...). -/
inductive WriteResult where
  | ok (hash : String)
  | failed
deriving DecidableEq, Repr

/-- The chain-facing environment of one `executeSwap` run: what the reserve
fetch returns, what each of the two contract writes does, and the status
field of the awaited receipt when the swap write returned a hash. -/
structure ChainEnv where
  approveWrite : WriteResult
  swapWrite : WriteResult
  receiptStatus : String
  fetch : FetchResult
deriving DecidableEq, Repr

/-- One positional argument of a router call. -/
inductive JsArg where
  | nat (n : Nat)
  | addr (s : String)
  | addrList (l : List String)
deriving DecidableEq, Repr

/-- A state-changing contract call issued through `writeContractAsync`. -/
inductive ContractCall where
  | approve (token spender : String) (amount : Nat)
  | router (contractAddr functionName : String) (args : List JsArg) (value : Nat)
deriving DecidableEq, Repr

/-- Model of `executeSwap`, as the pair (contract writes issued, alert messages shown),
in order.  Line-by-line correspondence with SwapCard.jsx lines 256-285:
* `buildSwapTransaction` throws (bad parse, reverting reserve read, failed
  trade construction) — the outer catch only logs, so no write and no alert;
* `args = Object.values(swapParams)`; when swapping from ETH the leading
  `amountIn` is shifted off, otherwise `approveTokens(args[0])` runs first:
  it approves the router on DAI for `parseEther(amount.toString())`, which
  re-parses the decimal digits of the raw bigint `amountIn` and scales by
  10^18 again, i.e. approves `amountIn * 10^18`; its own catch alerts
  "Approval Failed!" and swallows the error, so execution continues;
* the router write is then issued either way; if it throws, the outer catch
  only logs; if it returns a hash, the receipt is awaited and
  "Swap Success!" is alerted exactly when its status is "success",
  otherwise "Swap Failed!". -/
def executeSwapModel (st : SwapCardState) (addr : String) (env : ChainEnv) (nowMs : Nat) :
    List ContractCall × List String :=
  match buildSwapFromState st addr env.fetch nowMs with
  | Except.error _ => ([], [])
  | Except.ok p =>
    let fromEth := st.isSwappingFromEth
    let approveCalls : List ContractCall :=
      if fromEth then [] else [ContractCall.approve daiAddress routerAddress (p.amountIn * 10 ^ 18)]
    let approveAlerts : List String :=
      if fromEth then []
      else
        match env.approveWrite with
        | WriteResult.ok _ => []
        | WriteResult.failed => ["Approval Failed!"]
    let args : List JsArg :=
      if fromEth then
        [JsArg.nat p.amountOutMin, JsArg.addrList p.path, JsArg.addr p.toAddr, JsArg.nat p.deadline]
      else
        [JsArg.nat p.amountIn, JsArg.nat p.amountOutMin, JsArg.addrList p.path,
          JsArg.addr p.toAddr, JsArg.nat p.deadline]
    let fname := if fromEth then "swapExactETHForTokens" else "swapExactTokensForETH"
    let value := if fromEth then p.amountIn else 0
    let calls := approveCalls ++ [ContractCall.router routerAddress fname args value]
    match env.swapWrite with
    | WriteResult.failed => (calls, approveAlerts)
    | WriteResult.ok _ =>
      let resultAlert := if env.receiptStatus = "success" then ["Swap Success!"] else ["Swap Failed!"]
      (calls, approveAlerts ++ resultAlert)

deriving instance DecidableEq for Except

/-! ## Helper lemmas -/

theorem natDiv_le_natDiv_of_cross (n1 d1 n2 d2 : Nat) (hd1 : 0 < d1) (hd2 : 0 < d2)
    (h : n1 * d2 ≤ n2 * d1) : n1 / d1 ≤ n2 / d2 := by
  rw [Nat.le_div_iff_mul_le hd2]
  have h2 : n1 / d1 * d1 ≤ n1 := Nat.div_mul_le_self n1 d1
  have h1 : n1 / d1 * d2 * d1 ≤ n2 * d1 := by
    calc n1 / d1 * d2 * d1 = n1 / d1 * d1 * d2 := by ring
      _ ≤ n1 * d2 := Nat.mul_le_mul_right d2 h2
      _ ≤ n2 * d1 := h
  exact Nat.le_of_mul_le_mul_right h1 hd1

theorem pairGetOutputAmount_zero_reserve (amountIn reserveIn reserveOut : Nat)
    (h : reserveIn = 0 ∨ reserveOut = 0) :
    pairGetOutputAmount amountIn reserveIn reserveOut
      = Except.error SwapError.insufficientReserves := by
  unfold pairGetOutputAmount
  rw [if_pos h]

/-! ## Claim theorems -/

/-- C7: for fixed reserves `reserveIn > 0`, `reserveOut > 0`, the quoted
output `getAmountOut amountIn reserveIn reserveOut` (the constant-product
quote computed for the trade built by `fetchRouteAndTrade`) is
monotonically non-decreasing in the non-negative input amount. -/
theorem c7_quote_monotone (reserveIn reserveOut a b : Nat)
    (hIn : 0 < reserveIn) (hOut : 0 < reserveOut) (hab : a ≤ b) :
    getAmountOut a reserveIn reserveOut ≤ getAmountOut b reserveIn reserveOut := by
  unfold getAmountOut
  apply natDiv_le_natDiv_of_cross
  · exact Nat.add_pos_left (Nat.mul_pos hIn (by norm_num)) _
  · exact Nat.add_pos_left (Nat.mul_pos hIn (by norm_num)) _
  · nlinarith [Nat.mul_le_mul_right (997 * reserveOut * (reserveIn * 1000)) hab]

theorem c7_quote_monotone_witness :
    0 < 10 ∧ 0 < 20000 ∧ 3 ≤ 5 ∧ getAmountOut 3 10 20000 ≤ getAmountOut 5 10 20000 :=
  ⟨by decide, by decide, by decide, c7_quote_monotone 10 20000 3 5 (by decide) (by decide) (by decide)⟩

/-- C2: for any quoted (hence positive) output amount and any slippage
tolerance below 10000 bps, the minimum output used by
`buildSwapTransaction` is `amountOut * (10000 - bps) / 10000` with floor
division; it never exceeds the quoted output, equals it exactly when the
tolerance is zero, and 50 bps on a quoted `1000e18` gives exactly
`995e18`. -/
theorem c2_minimum_output (amountOut bps : Nat) (hbps : bps < 10000) (hpos : 0 < amountOut) :
    minimumAmountOut amountOut bps = amountOut * (10000 - bps) / 10000 ∧
    minimumAmountOut amountOut bps ≤ amountOut ∧
    (minimumAmountOut amountOut bps = amountOut ↔ bps = 0) ∧
    minimumAmountOut (1000 * 10 ^ 18) 50 = 995 * 10 ^ 18 := by
  refine ⟨rfl, ?_, ⟨?_, ?_⟩, by decide⟩
  · calc amountOut * (10000 - bps) / 10000
        ≤ amountOut * 10000 / 10000 :=
          Nat.div_le_div_right (Nat.mul_le_mul_left amountOut (Nat.sub_le 10000 bps))
      _ = amountOut := Nat.mul_div_cancel amountOut (by norm_num)
  · intro heq
    by_contra hne
    have hlt : amountOut * (10000 - bps) < amountOut * 10000 := by
      have h1 : 10000 - bps < 10000 := by omega
      exact mul_lt_mul_of_pos_left h1 hpos
    have : minimumAmountOut amountOut bps < amountOut := by
      unfold minimumAmountOut
      rw [Nat.div_lt_iff_lt_mul (by norm_num : (0:Nat) < 10000)]
      calc amountOut * (10000 - bps) < amountOut * 10000 := hlt
        _ = amountOut * 10000 := rfl
    omega
  · intro hb
    subst hb
    unfold minimumAmountOut
    simp

theorem c2_minimum_output_witness :
    50 < 10000 ∧ 0 < 1000 * 10 ^ 18 ∧
      (minimumAmountOut (1000 * 10 ^ 18) 50 = 1000 * 10 ^ 18 * (10000 - 50) / 10000 ∧
       minimumAmountOut (1000 * 10 ^ 18) 50 ≤ 1000 * 10 ^ 18 ∧
       (minimumAmountOut (1000 * 10 ^ 18) 50 = 1000 * 10 ^ 18 ↔ 50 = 0) ∧
       minimumAmountOut (1000 * 10 ^ 18) 50 = 995 * 10 ^ 18) :=
  ⟨by decide, by decide, c2_minimum_output (1000 * 10 ^ 18) 50 (by decide) (by decide)⟩

/-- C5 (amended): for every textual input the amount parser rejects — any
string that is not a plain non-negative decimal, such as "abc" — the quote
handler reports a zero To amount synchronously and the reserve-fetch
network read is not issued.  (An input that parses but is not positive,
such as "0", still issues the reserve fetch; see the counterexample.) -/
theorem c5_unparseable_no_fetch (amount : String) (dir : Bool) (fetch : FetchResult)
    (h : parseEtherModel amount = none) :
    (handleAmountChangeModel amount dir fetch).toAmount = 0 ∧
    (handleAmountChangeModel amount dir fetch).fetchedReserves = false := by
  unfold handleAmountChangeModel
  rw [h]
  exact ⟨rfl, rfl⟩

theorem c5_unparseable_no_fetch_witness :
    parseEtherModel "abc" = none ∧
    (handleAmountChangeModel "abc" true (FetchResult.ok (2 * 10 ^ 22) (10 ^ 19))).toAmount = 0 ∧
    (handleAmountChangeModel "abc" true
        (FetchResult.ok (2 * 10 ^ 22) (10 ^ 19))).fetchedReserves = false :=
  ⟨by decide,
   c5_unparseable_no_fetch "abc" true (FetchResult.ok (2 * 10 ^ 22) (10 ^ 19)) (by decide)⟩

/-- C5, counterexample to the claim as stated: the input "0" cannot be parsed
as a valid positive decimal (it parses, but to zero), yet the handler does
issue the reserve-fetch network read for it — `parseEther("0")` succeeds,
so `fetchRouteAndTrade` runs and reads the pair reserves before the trade
construction throws.  Only the zero-quote half of the claim holds there. -/
theorem c5_counterexample :
    parseEtherModel "0" = some 0 ∧
    (handleAmountChangeModel "0" true (FetchResult.ok (2 * 10 ^ 22) (10 ^ 19))).fetchedReserves
      = true ∧
    (handleAmountChangeModel "0" true (FetchResult.ok (2 * 10 ^ 22) (10 ^ 19))).toAmount = 0 := by
  decide

/-- C6: whenever the textual amount parses and either the input-side or the
output-side reserve is zero, or the reserve read signals pool-not-found,
`handleAmountChange` yields a To amount of 0; no exception propagates (the
model is a total function into plain state) and the From amount is still
updated to the entered text. -/
theorem c6_zero_reserves_zero_quote (amount : String) (raw : Nat) (dir : Bool)
    (fetch : FetchResult) (hparse : parseEtherModel amount = some raw)
    (hbad : fetch = FetchResult.poolNotFound ∨
      ∃ r0 r1, fetch = FetchResult.ok r0 r1 ∧
        ((if dir then r1 else r0) = 0 ∨ (if dir then r0 else r1) = 0)) :
    (handleAmountChangeModel amount dir fetch).toAmount = 0 ∧
    (handleAmountChangeModel amount dir fetch).fromAmount = amount := by
  rcases hbad with h | ⟨r0, r1, hfe, hz⟩
  · subst h
    simp [handleAmountChangeModel, hparse, fetchRouteAndTradeModel]
  · subst hfe
    have herr : fetchRouteAndTradeModel raw dir (FetchResult.ok r0 r1)
        = Except.error SwapError.insufficientReserves := by
      simp only [fetchRouteAndTradeModel]
      rw [pairGetOutputAmount_zero_reserve _ _ _ hz]
    simp [handleAmountChangeModel, hparse, herr]

theorem c6_zero_reserves_zero_quote_witness :
    parseEtherModel "1" = some (10 ^ 18) ∧
    (handleAmountChangeModel "1" true (FetchResult.ok 0 5)).toAmount = 0 ∧
    (handleAmountChangeModel "1" true (FetchResult.ok 0 5)).fromAmount = "1" :=
  ⟨by decide,
   c6_zero_reserves_zero_quote "1" (10 ^ 18) true (FetchResult.ok 0 5) (by decide)
     (Or.inr ⟨0, 5, rfl, Or.inr rfl⟩)⟩


/-- Inversion for the trade construction: a successful result is exactly the
constant-product floor quote. -/
theorem pairGetOutputAmount_ok (amountIn reserveIn reserveOut out : Nat)
    (h : pairGetOutputAmount amountIn reserveIn reserveOut = Except.ok out) :
    out = getAmountOut amountIn reserveIn reserveOut := by
  unfold pairGetOutputAmount at h
  split at h
  · cases h
  · split at h
    · cases h
    · injection h with h
      exact h.symm

/-- C1 (amended): for every parseable input amount and every reserve snapshot
on which the trade construction succeeds, the trade output computed inside
`fetchRouteAndTrade` equals
`floor(amountIn*997*reserveOut / (reserveIn*1000 + amountIn*997))` in raw
integer base units (`getAmountOut`); but the value `handleAmountChange`
actually sets as the To amount is `rate * parseFloat(amount)` with
`rate = executionPrice.toSignificant(6)` — a 6-significant-digit
approximation of the price — and not the floor value itself. -/
theorem c1_trade_vs_displayed (amount : String) (raw : Nat) (dir : Bool) (r0 r1 out : Nat)
    (rate : ℚ) (hparse : parseEtherModel amount = some raw)
    (htrade : fetchRouteAndTradeModel raw dir (FetchResult.ok r0 r1) = Except.ok (out, rate)) :
    out = getAmountOut raw (if dir then r1 else r0) (if dir then r0 else r1) ∧
    rate = toSignificantRat 6 out raw ∧
    (handleAmountChangeModel amount dir (FetchResult.ok r0 r1)).toAmount
      = rate * parseFloatModel amount := by
  have h2 := htrade
  simp only [fetchRouteAndTradeModel] at h2
  split at h2
  · exact absurd h2 (by simp)
  · rename_i out2 heq
    rw [Except.ok.injEq, Prod.mk.injEq] at h2
    obtain ⟨ho, hr⟩ := h2
    subst ho
    refine ⟨pairGetOutputAmount_ok _ _ _ _ heq, hr.symm, ?_⟩
    simp [handleAmountChangeModel, hparse, htrade]

theorem c1_trade_vs_displayed_witness :
    parseEtherModel "1" = some (10 ^ 18) ∧
    fetchRouteAndTradeModel (10 ^ 18) true (FetchResult.ok (2 * 10 ^ 22) (10 ^ 19))
      = Except.ok (1813221787760298263162, toSignificantRat 6 1813221787760298263162 (10 ^ 18)) ∧
    (1813221787760298263162
        = getAmountOut (10 ^ 18) (if true then 10 ^ 19 else 2 * 10 ^ 22)
            (if true then 2 * 10 ^ 22 else 10 ^ 19) ∧
      toSignificantRat 6 1813221787760298263162 (10 ^ 18)
        = toSignificantRat 6 1813221787760298263162 (10 ^ 18) ∧
      (handleAmountChangeModel "1" true (FetchResult.ok (2 * 10 ^ 22) (10 ^ 19))).toAmount
        = toSignificantRat 6 1813221787760298263162 (10 ^ 18) * parseFloatModel "1") := by
  have hOutV : getAmountOut (10 ^ 18) (10 ^ 19) (2 * 10 ^ 22) = 1813221787760298263162 := by
    decide
  have hP : pairGetOutputAmount (10 ^ 18) (10 ^ 19) (2 * 10 ^ 22)
      = Except.ok 1813221787760298263162 := by
    unfold pairGetOutputAmount
    rw [if_neg (by norm_num), if_neg (by rw [hOutV]; norm_num), hOutV]
  have hT : fetchRouteAndTradeModel (10 ^ 18) true (FetchResult.ok (2 * 10 ^ 22) (10 ^ 19))
      = Except.ok (1813221787760298263162,
          toSignificantRat 6 1813221787760298263162 (10 ^ 18)) := by
    simp only [fetchRouteAndTradeModel, eq_self_iff_true, if_true]
    rw [hP]
  refine ⟨by decide, hT, ?_⟩
  exact c1_trade_vs_displayed "1" (10 ^ 18) true (2 * 10 ^ 22) (10 ^ 19)
    1813221787760298263162 (toSignificantRat 6 1813221787760298263162 (10 ^ 18))
    (by decide) hT

/-- C1, counterexample to the claim as stated: with reserves
`reserveIn = 10e18` (WETH side) and `reserveOut = 20000e18` (DAI side) and
the entered text "1" (raw input `1e18`), the exact floor quote is
`1813221787760298263162` raw units, but the To amount set by
`handleAmountChange` is `1813.22` — the 6-significant-figure rate times
the parsed input — unequal to the floor quote both as read and rescaled
by `10^18` into raw base units (`1813220000000000000000`). -/
theorem c1_counterexample :
    ¬((handleAmountChangeModel "1" true (FetchResult.ok (2 * 10 ^ 22) (10 ^ 19))).toAmount
        = (getAmountOut (10 ^ 18) (10 ^ 19) (2 * 10 ^ 22) : ℚ)) ∧
    ¬((handleAmountChangeModel "1" true (FetchResult.ok (2 * 10 ^ 22) (10 ^ 19))).toAmount
          * 10 ^ 18
        = (getAmountOut (10 ^ 18) (10 ^ 19) (2 * 10 ^ 22) : ℚ)) := by
  have hOutV : getAmountOut (10 ^ 18) (10 ^ 19) (2 * 10 ^ 22) = 1813221787760298263162 := by
    decide
  have hP : pairGetOutputAmount (10 ^ 18) (10 ^ 19) (2 * 10 ^ 22)
      = Except.ok 1813221787760298263162 := by
    unfold pairGetOutputAmount
    rw [if_neg (by norm_num), if_neg (by rw [hOutV]; norm_num), hOutV]
  have hT : fetchRouteAndTradeModel (10 ^ 18) true (FetchResult.ok (2 * 10 ^ 22) (10 ^ 19))
      = Except.ok (1813221787760298263162,
          toSignificantRat 6 1813221787760298263162 (10 ^ 18)) := by
    simp only [fetchRouteAndTradeModel, eq_self_iff_true, if_true]
    rw [hP]
  have hPF : parseFloatModel "1" = 1 := by
    have hp : parseDecimalParts "1" = some (1, 0) := by decide
    simp only [parseFloatModel, hp]
    norm_num
  have hRate : toSignificantRat 6 1813221787760298263162 (10 ^ 18) = 90661 / 50 := by
    have h1 : sigScale 6 1813221787760298263162 (10 ^ 18) = -2 := by decide
    have h2 : sigMantissa 6 1813221787760298263162 (10 ^ 18) = 181322 := by decide
    simp only [toSignificantRat, h1, h2]
    norm_num [show Int.toNat 2 = 2 from rfl]
  have hQ : (handleAmountChangeModel "1" true (FetchResult.ok (2 * 10 ^ 22) (10 ^ 19))).toAmount
      = 90661 / 50 := by
    simp only [handleAmountChangeModel,
      show parseEtherModel "1" = some (10 ^ 18) from by decide, hT, hPF, hRate]
    norm_num
  constructor
  · rw [hQ, hOutV]
    norm_num
  · rw [hQ, hOutV]
    norm_num

/-- C10: the settings modal keeps its slippage and deadline values in local
state that the swap path never reads, so two runs of
`buildSwapTransaction` differing only in the settings inputs (and in
whether the modal is shown) produce identical swap parameters; the
tolerance applied is always the constant 50/10000 and the deadline offset
is always the constant twenty minutes. -/
theorem c10_settings_noninterference (fa : String) (dir sh1 sh2 : Bool)
    (s1 s2 : SettingsState) (addr : String) (fetch : FetchResult) (nowMs : Nat) :
    buildSwapFromState ⟨fa, dir, sh1, s1⟩ addr fetch nowMs
      = buildSwapFromState ⟨fa, dir, sh2, s2⟩ addr fetch nowMs ∧
    (∀ p, buildSwapFromState ⟨fa, dir, sh1, s1⟩ addr fetch nowMs = Except.ok p →
      p.deadline = nowMs / 1000 + 60 * 20 ∧
      ∃ raw out rate, parseEtherModel fa = some raw ∧
        fetchRouteAndTradeModel raw dir fetch = Except.ok (out, rate) ∧
        p.amountOutMin = minimumAmountOut out 50) := by
  constructor
  · rfl
  · intro p hp
    unfold buildSwapFromState at hp
    rcases hpe : parseEtherModel fa with _ | raw
    · simp only [hpe] at hp
      exact absurd hp (by simp)
    · simp only [hpe] at hp
      rcases hft : fetchRouteAndTradeModel raw dir fetch with e | ⟨out, rate⟩
      · simp only [hft] at hp
        exact absurd hp (by simp)
      · simp only [hft] at hp
        injection hp with hp
        subst hp
        exact ⟨rfl, raw, out, rate, rfl, hft, rfl⟩

theorem c10_settings_noninterference_witness :
    buildSwapFromState ⟨"1", true, true, ⟨"0.5", "20"⟩⟩ "0xme"
        (FetchResult.ok (2 * 10 ^ 22) (10 ^ 19)) 0
      = buildSwapFromState ⟨"1", true, false, ⟨"9", "99"⟩⟩ "0xme"
        (FetchResult.ok (2 * 10 ^ 22) (10 ^ 19)) 0 ∧
    (⟨10 ^ 18, minimumAmountOut (getAmountOut (10 ^ 18) (10 ^ 19) (2 * 10 ^ 22)) 50,
        [wethAddress, daiAddress], "0xme", 1200⟩ : SwapParams).deadline = 0 / 1000 + 60 * 20 :=
  ⟨(c10_settings_noninterference "1" true true false ⟨"0.5", "20"⟩ ⟨"9", "99"⟩ "0xme"
      (FetchResult.ok (2 * 10 ^ 22) (10 ^ 19)) 0).1,
   ((c10_settings_noninterference "1" true true false ⟨"0.5", "20"⟩ ⟨"9", "99"⟩ "0xme"
      (FetchResult.ok (2 * 10 ^ 22) (10 ^ 19)) 0).2
      ⟨10 ^ 18, minimumAmountOut (getAmountOut (10 ^ 18) (10 ^ 19) (2 * 10 ^ 22)) 50,
        [wethAddress, daiAddress], "0xme", 1200⟩ (by decide)).1⟩

/-- C8: for every swap submission whose parameters were built, the router
entry point and argument list match the direction flag: swapping from the
native asset calls `swapExactETHForTokens(amountOutMin, path, to,
deadline)` with attached value `amountIn` and `path = [WETH, DAI]`;
otherwise `swapExactTokensForETH(amountIn, amountOutMin, path, to,
deadline)` with attached value 0 and `path = [DAI, WETH]`. -/
theorem c8_router_call (st : SwapCardState) (addr : String) (env : ChainEnv) (nowMs : Nat)
    (p : SwapParams) (hp : buildSwapFromState st addr env.fetch nowMs = Except.ok p) :
    p.path = (if st.isSwappingFromEth then [wethAddress, daiAddress]
              else [daiAddress, wethAddress]) ∧
    ContractCall.router routerAddress
        (if st.isSwappingFromEth then "swapExactETHForTokens" else "swapExactTokensForETH")
        (if st.isSwappingFromEth then
          [JsArg.nat p.amountOutMin, JsArg.addrList p.path, JsArg.addr p.toAddr,
            JsArg.nat p.deadline]
         else
          [JsArg.nat p.amountIn, JsArg.nat p.amountOutMin, JsArg.addrList p.path,
            JsArg.addr p.toAddr, JsArg.nat p.deadline])
        (if st.isSwappingFromEth then p.amountIn else 0)
      ∈ (executeSwapModel st addr env nowMs).1 := by
  have hp0 := hp
  unfold buildSwapFromState at hp
  rcases hpe : parseEtherModel st.fromAmount with _ | raw
  · simp only [hpe] at hp
    exact absurd hp (by simp)
  · simp only [hpe] at hp
    rcases hft : fetchRouteAndTradeModel raw st.isSwappingFromEth env.fetch with e | ⟨out, rate⟩
    · simp only [hft] at hp
      exact absurd hp (by simp)
    · simp only [hft] at hp
      injection hp with hp
      subst hp
      constructor
      · rfl
      · unfold executeSwapModel
        rw [hp0]
        cases hfe : st.isSwappingFromEth <;> cases hsw : env.swapWrite <;> simp [hfe]

theorem c8_router_call_witness :
    buildSwapFromState ⟨"1", true, false, ⟨"0.5", "20"⟩⟩ "0xme"
        (FetchResult.ok (2 * 10 ^ 22) (10 ^ 19)) 0
      = Except.ok ⟨10 ^ 18,
          minimumAmountOut (getAmountOut (10 ^ 18) (10 ^ 19) (2 * 10 ^ 22)) 50,
          [wethAddress, daiAddress], "0xme", 1200⟩ ∧
    ([wethAddress, daiAddress]
        = (if (true : Bool) then [wethAddress, daiAddress] else [daiAddress, wethAddress]) ∧
      ContractCall.router routerAddress
          (if (true : Bool) then "swapExactETHForTokens" else "swapExactTokensForETH")
          (if (true : Bool) then
            [JsArg.nat (minimumAmountOut (getAmountOut (10 ^ 18) (10 ^ 19) (2 * 10 ^ 22)) 50),
              JsArg.addrList [wethAddress, daiAddress], JsArg.addr "0xme", JsArg.nat 1200]
           else
            [JsArg.nat (10 ^ 18),
              JsArg.nat (minimumAmountOut (getAmountOut (10 ^ 18) (10 ^ 19) (2 * 10 ^ 22)) 50),
              JsArg.addrList [wethAddress, daiAddress], JsArg.addr "0xme", JsArg.nat 1200])
          (if (true : Bool) then 10 ^ 18 else 0)
        ∈ (executeSwapModel ⟨"1", true, false, ⟨"0.5", "20"⟩⟩ "0xme"
            ⟨WriteResult.ok "0x1", WriteResult.ok "0x2", "success",
              FetchResult.ok (2 * 10 ^ 22) (10 ^ 19)⟩ 0).1) :=
  ⟨by decide,
   c8_router_call ⟨"1", true, false, ⟨"0.5", "20"⟩⟩ "0xme"
     ⟨WriteResult.ok "0x1", WriteResult.ok "0x2", "success",
       FetchResult.ok (2 * 10 ^ 22) (10 ^ 19)⟩ 0
     ⟨10 ^ 18, minimumAmountOut (getAmountOut (10 ^ 18) (10 ^ 19) (2 * 10 ^ 22)) 50,
       [wethAddress, daiAddress], "0xme", 1200⟩ (by decide)⟩

/-- C3 (amended): for every swap attempt with a non-native input token whose
parameters were built, an approval write on the input token for the router
is requested first — but for `parseEther(amount.toString())` re-scaled,
i.e. `amountIn * 10^18`, not the input amount itself — and when that
approval write fails the failure is surfaced by the blocking
"Approval Failed!" alert, yet the router swap call is still attempted
(the error is swallowed inside `approveTokens`). -/
theorem c3_approval_then_swap_anyway (st : SwapCardState) (addr : String) (env : ChainEnv)
    (nowMs : Nat) (p : SwapParams) (hdir : st.isSwappingFromEth = false)
    (hp : buildSwapFromState st addr env.fetch nowMs = Except.ok p) :
    (executeSwapModel st addr env nowMs).1
      = [ContractCall.approve daiAddress routerAddress (p.amountIn * 10 ^ 18),
         ContractCall.router routerAddress "swapExactTokensForETH"
           [JsArg.nat p.amountIn, JsArg.nat p.amountOutMin, JsArg.addrList p.path,
             JsArg.addr p.toAddr, JsArg.nat p.deadline] 0] ∧
    (env.approveWrite = WriteResult.failed →
      "Approval Failed!" ∈ (executeSwapModel st addr env nowMs).2) := by
  unfold executeSwapModel
  rw [hp]
  cases hsw : env.swapWrite <;> cases hap : env.approveWrite <;> simp [hdir]

theorem c3_approval_then_swap_anyway_witness :
    buildSwapFromState ⟨"1", false, false, ⟨"0.5", "20"⟩⟩ "0xme"
        (FetchResult.ok (2 * 10 ^ 22) (10 ^ 19)) 0
      = Except.ok ⟨10 ^ 18,
          minimumAmountOut (getAmountOut (10 ^ 18) (2 * 10 ^ 22) (10 ^ 19)) 50,
          [daiAddress, wethAddress], "0xme", 1200⟩ ∧
    ((executeSwapModel ⟨"1", false, false, ⟨"0.5", "20"⟩⟩ "0xme"
        ⟨WriteResult.failed, WriteResult.ok "0xh", "success",
          FetchResult.ok (2 * 10 ^ 22) (10 ^ 19)⟩ 0).1
      = [ContractCall.approve daiAddress routerAddress (10 ^ 18 * 10 ^ 18),
         ContractCall.router routerAddress "swapExactTokensForETH"
           [JsArg.nat (10 ^ 18),
             JsArg.nat (minimumAmountOut (getAmountOut (10 ^ 18) (2 * 10 ^ 22) (10 ^ 19)) 50),
             JsArg.addrList [daiAddress, wethAddress], JsArg.addr "0xme", JsArg.nat 1200] 0] ∧
     (WriteResult.failed = WriteResult.failed →
       "Approval Failed!" ∈ (executeSwapModel ⟨"1", false, false, ⟨"0.5", "20"⟩⟩ "0xme"
          ⟨WriteResult.failed, WriteResult.ok "0xh", "success",
            FetchResult.ok (2 * 10 ^ 22) (10 ^ 19)⟩ 0).2)) :=
  ⟨by decide,
   c3_approval_then_swap_anyway ⟨"1", false, false, ⟨"0.5", "20"⟩⟩ "0xme"
     ⟨WriteResult.failed, WriteResult.ok "0xh", "success",
       FetchResult.ok (2 * 10 ^ 22) (10 ^ 19)⟩ 0
     ⟨10 ^ 18, minimumAmountOut (getAmountOut (10 ^ 18) (2 * 10 ^ 22) (10 ^ 19)) 50,
       [daiAddress, wethAddress], "0xme", 1200⟩ rfl (by decide)⟩

/-- C3, counterexample to the claim as stated: a DAI-to-ETH swap where the
approval write fails.  The full trace shows (a) the approval requested is
for `amountIn * 10^18 = 10^36` raw units, not the input amount `10^18`,
and (b) after the blocking "Approval Failed!" alert the router swap call
is still attempted (and here succeeds), contradicting both the claimed
approval amount and the claim that the swap is not attempted. -/
theorem c3_counterexample :
    executeSwapModel ⟨"1", false, false, ⟨"0.5", "20"⟩⟩ "0xme"
        ⟨WriteResult.failed, WriteResult.ok "0xh", "success",
          FetchResult.ok (2 * 10 ^ 22) (10 ^ 19)⟩ 0
      = ([ContractCall.approve daiAddress routerAddress (10 ^ 18 * 10 ^ 18),
          ContractCall.router routerAddress "swapExactTokensForETH"
            [JsArg.nat (10 ^ 18),
              JsArg.nat (minimumAmountOut (getAmountOut (10 ^ 18) (2 * 10 ^ 22) (10 ^ 19)) 50),
              JsArg.addrList [daiAddress, wethAddress], JsArg.addr "0xme", JsArg.nat 1200] 0],
         ["Approval Failed!", "Swap Success!"]) ∧
    (10 : Nat) ^ 18 * 10 ^ 18 ≠ 10 ^ 18 := by
  constructor
  · decide
  · decide

/-- C4 (amended): when the router write returns a hash, `executeSwap` waits
for the receipt and alerts "Swap Success!" exactly when the receipt status
is "success" and "Swap Failed!" exactly otherwise; but a failure thrown
before or during submission (a failed build or a throwing router write) is
only logged to the console — no blocking notification is shown for it.
There is no automatic retry (the model issues each write at most once per
run). -/
theorem c4_receipt_reporting (st : SwapCardState) (addr : String) (env : ChainEnv)
    (nowMs : Nat) :
    ((∃ e, buildSwapFromState st addr env.fetch nowMs = Except.error e) →
      executeSwapModel st addr env nowMs = ([], [])) ∧
    (∀ p, buildSwapFromState st addr env.fetch nowMs = Except.ok p →
      (∀ h, env.swapWrite = WriteResult.ok h →
        (("Swap Success!" ∈ (executeSwapModel st addr env nowMs).2 ↔
            env.receiptStatus = "success") ∧
         ("Swap Failed!" ∈ (executeSwapModel st addr env nowMs).2 ↔
            ¬env.receiptStatus = "success"))) ∧
      (env.swapWrite = WriteResult.failed →
        ¬"Swap Success!" ∈ (executeSwapModel st addr env nowMs).2 ∧
        ¬"Swap Failed!" ∈ (executeSwapModel st addr env nowMs).2)) := by
  constructor
  · rintro ⟨e, he⟩
    unfold executeSwapModel
    rw [he]
  · intro p hp
    constructor
    · intro h hsw
      unfold executeSwapModel
      rw [hp, hsw]
      by_cases hrs : env.receiptStatus = "success" <;>
        cases hfe : st.isSwappingFromEth <;>
          cases hap : env.approveWrite <;> simp [hrs, hfe]
    · intro hsw
      unfold executeSwapModel
      rw [hp, hsw]
      cases hfe : st.isSwappingFromEth <;>
        cases hap : env.approveWrite <;> simp [hfe]

theorem c4_receipt_reporting_witness :
    buildSwapFromState ⟨"1", true, false, ⟨"0.5", "20"⟩⟩ "0xme"
        (FetchResult.ok (2 * 10 ^ 22) (10 ^ 19)) 0
      = Except.ok ⟨10 ^ 18,
          minimumAmountOut (getAmountOut (10 ^ 18) (10 ^ 19) (2 * 10 ^ 22)) 50,
          [wethAddress, daiAddress], "0xme", 1200⟩ ∧
    (("Swap Success!" ∈ (executeSwapModel ⟨"1", true, false, ⟨"0.5", "20"⟩⟩ "0xme"
          ⟨WriteResult.ok "0x1", WriteResult.ok "0x2", "success",
            FetchResult.ok (2 * 10 ^ 22) (10 ^ 19)⟩ 0).2 ↔ ("success" : String) = "success") ∧
     ("Swap Failed!" ∈ (executeSwapModel ⟨"1", true, false, ⟨"0.5", "20"⟩⟩ "0xme"
          ⟨WriteResult.ok "0x1", WriteResult.ok "0x2", "success",
            FetchResult.ok (2 * 10 ^ 22) (10 ^ 19)⟩ 0).2 ↔ ¬("success" : String) = "success")) :=
  ⟨by decide,
   ((c4_receipt_reporting ⟨"1", true, false, ⟨"0.5", "20"⟩⟩ "0xme"
       ⟨WriteResult.ok "0x1", WriteResult.ok "0x2", "success",
         FetchResult.ok (2 * 10 ^ 22) (10 ^ 19)⟩ 0).2
     ⟨10 ^ 18, minimumAmountOut (getAmountOut (10 ^ 18) (10 ^ 19) (2 * 10 ^ 22)) 50,
       [wethAddress, daiAddress], "0xme", 1200⟩ (by decide)).1 "0x2" rfl⟩

/-- C4, counterexample to the claim as stated: an ETH-to-DAI swap whose
router write throws (for example the user rejects the transaction in the
wallet).  The swap was attempted — the call trace is non-empty — but the
alert list is empty: the outer catch only logs the error to the console,
so this swap-execution failure is not surfaced to the user via a blocking
notification, contradicting the claim. -/
theorem c4_counterexample :
    (executeSwapModel ⟨"1", true, false, ⟨"0.5", "20"⟩⟩ "0xme"
        ⟨WriteResult.ok "0x1", WriteResult.failed, "success",
          FetchResult.ok (2 * 10 ^ 22) (10 ^ 19)⟩ 0).2 = [] ∧
    (executeSwapModel ⟨"1", true, false, ⟨"0.5", "20"⟩⟩ "0xme"
        ⟨WriteResult.ok "0x1", WriteResult.failed, "success",
          FetchResult.ok (2 * 10 ^ 22) (10 ^ 19)⟩ 0).1 ≠ [] := by
  constructor
  · decide
  · decide

/-- C9: evaluating the token-sorting destructure of `getPairObject`.  In the
shipped order `[DAI, WETH]` the comparison sorts correctly (DAI sorts
before WETH by lower-cased address), and the fetched `reserve0`/`reserve1`
are then paired with the sorted `token0`/`token1`.  But handed the two
tokens in the opposite order, the else arm `[token1, token0]` reads both
variables inside their own declaration — a ReferenceError at runtime
(modelled as `none`) — instead of returning the sorted pair `(DAI, WETH)`
the claim requires, so the claim describes the clear intent and the code
has a slip. -/
theorem c9_sort_bug_eval :
    sortTokensJs DAI WETH = some (DAI, WETH) ∧ sortTokensJs WETH DAI = none := by
  constructor
  · decide
  · decide
